import Mathlib

/-!
Shallow embedding of the fact-generator domain service (`src/db/tables.ts`).

The service is a set of CRUD handlers over four tables (FactTopics, Facts,
FactRequests, UserFactState).  The relational store is modelled as four lists
of rows plus per-table auto-increment counters; dates are naturals
(milliseconds since epoch), the ambient `new Date()` of a handler is passed
explicitly as a `now : Nat` argument.  The authenticated caller
(`context.locals.user`) is modelled by its id: `ctx : Option String`, `none`
meaning no user principal.  Opaque JSON payloads (`sourceMeta`, request
`input`/`output`) are modelled as opaque optional strings.  Inputs are assumed
to have passed their zod schema (enum fields are inductive types, required
strings are present); the schema performs no defaulting, so optional fields
are `Option`s.

JavaScript semantics that matter and are modelled exactly:
  * `if (input.topicId)` (createFact, createRequest) and
    `input?.topicId ? _ : _` (listFacts) are truthiness tests: a topicId of 0
    behaves like an absent one;
  * `!row.ownerId` (listTopics, listFacts) is a truthiness test on a text
    column: an empty-string ownerId behaves like an unset one;
  * `a ?? b` is nullish coalescing, modelled on `Option`s;
  * the SQL predicate `eq(col, v)` used in `where` clauses is strict equality
    and never matches a NULL column.

Mutating handlers return the typed result together with the store after the
call, so that "the store is unchanged on error" is expressible; read-only
handlers return only their result, as they never write.
-/

namespace FactGen

inductive Difficulty where
  | basic
  | intermediate
  | advanced
deriving DecidableEq, Repr

inductive Origin where
  | ai
  | user
  | curated
deriving DecidableEq, Repr

inductive RequestStatus where
  | pending
  | completed
  | failed
deriving DecidableEq, Repr

inductive Reaction where
  | none
  | like
  | love
  | mind_blown
  | meh
deriving DecidableEq, Repr

/-- Row of the FactTopics table. -/
structure Topic where
  id : Nat
  ownerId : Option String
  name : String
  description : Option String
  slug : Option String
  isActive : Bool
  createdAt : Nat
  updatedAt : Nat
deriving DecidableEq, Repr

/-- Row of the Facts table. -/
structure Fact where
  id : Nat
  topicId : Option Nat
  content : String
  difficulty : Difficulty
  source : Option String
  sourceMeta : Option String
  origin : Origin
  ownerId : Option String
  isActive : Bool
  createdAt : Nat
  updatedAt : Nat
deriving DecidableEq, Repr

/-- Row of the FactRequests table. -/
structure FactRequest where
  id : Nat
  userId : Option String
  topicId : Option Nat
  prompt : Option String
  input : Option String
  output : Option String
  status : RequestStatus
  createdAt : Nat
deriving DecidableEq, Repr

/-- Row of the UserFactState table. -/
structure UserFactState where
  id : Nat
  userId : String
  factId : Nat
  seen : Bool
  seenAt : Option Nat
  isFavorite : Bool
  reaction : Reaction
  createdAt : Nat
  updatedAt : Nat
deriving DecidableEq, Repr

/-- The relational store: the four tables plus their auto-increment counters. -/
structure Store where
  topics : List Topic
  facts : List Fact
  requests : List FactRequest
  states : List UserFactState
  nextTopicId : Nat
  nextFactId : Nat
  nextRequestId : Nat
  nextStateId : Nat
deriving DecidableEq, Repr

/-- Typed failures surfaced to the caller (`ActionError` codes). -/
inductive Err where
  | unauthorized
  | notFound
deriving DecidableEq, Repr

deriving instance DecidableEq for Except

/-- JavaScript truthiness of a nullable text column: null/undefined and the
empty string are falsy. -/
def jsTruthyText : Option String → Bool
  | Option.none => false
  | Option.some s => !(s == "")

/-- `a ?? b` for an optional column being written: a provided value overrides,
otherwise the previous optional value is kept. -/
def applyOpt (newVal : Option α) (old : Option α) : Option α :=
  match newVal with
  | Option.some v => Option.some v
  | Option.none => old

/-- `select().from(FactTopics).where(eq(FactTopics.id, tid)).limit(1)` is
non-empty. -/
def topicExists (store : Store) (tid : Nat) : Bool :=
  (store.topics.find? (fun t => t.id == tid)).isSome

/-- Auth guard: return the authenticated user or fail `Unauthorized`
(`requireUser` in the source). -/
def requireUser (ctx : Option String) : Except Err String :=
  match ctx with
  | Option.none => Except.error Err.unauthorized
  | Option.some uid => Except.ok uid

structure CreateTopicInput where
  name : String
  description : Option String
  slug : Option String
  isActive : Option Bool
deriving DecidableEq, Repr

structure UpdateTopicInput where
  id : Nat
  name : Option String
  description : Option String
  slug : Option String
  isActive : Option Bool
deriving DecidableEq, Repr

/-- `Object.keys(updateData).length === 0` for updateTopic: no field of the
partial update was provided. -/
def UpdateTopicInput.isEmpty (i : UpdateTopicInput) : Bool :=
  i.name.isNone && i.description.isNone && i.slug.isNone && i.isActive.isNone

structure ListTopicsInput where
  includeInactive : Option Bool
deriving DecidableEq, Repr

structure CreateFactInput where
  topicId : Option Nat
  content : String
  difficulty : Option Difficulty
  source : Option String
  sourceMeta : Option String
  origin : Option Origin
  isActive : Option Bool
deriving DecidableEq, Repr

structure UpdateFactInput where
  id : Nat
  topicId : Option Nat
  content : Option String
  difficulty : Option Difficulty
  source : Option String
  sourceMeta : Option String
  origin : Option Origin
  isActive : Option Bool
deriving DecidableEq, Repr

/-- `Object.keys(updateData).length === 0` for updateFact. -/
def UpdateFactInput.isEmpty (i : UpdateFactInput) : Bool :=
  i.topicId.isNone && i.content.isNone && i.difficulty.isNone && i.source.isNone &&
    i.sourceMeta.isNone && i.origin.isNone && i.isActive.isNone

structure ListFactsInput where
  topicId : Option Nat
  includeInactive : Option Bool
deriving DecidableEq, Repr

structure CreateRequestInput where
  topicId : Option Nat
  prompt : Option String
  input : Option String
  output : Option String
  status : Option RequestStatus
deriving DecidableEq, Repr

structure UpdateUserFactStateInput where
  factId : Nat
  seen : Option Bool
  seenAt : Option Nat
  isFavorite : Option Bool
  reaction : Option Reaction
deriving DecidableEq, Repr

structure ListUserFactStateInput where
  onlyFavorites : Option Bool
deriving DecidableEq, Repr

/-- createTopic action: insert a topic owned by the caller. -/
def createTopic (ctx : Option String) (input : CreateTopicInput) (now : Nat)
    (store : Store) : Except Err Topic × Store :=
  match requireUser ctx with
  | Except.error e => (Except.error e, store)
  | Except.ok uid =>
    let topic : Topic :=
      { id := store.nextTopicId
        ownerId := Option.some uid
        name := input.name
        description := input.description
        slug := input.slug
        isActive := input.isActive.getD true
        createdAt := now
        updatedAt := now }
    (Except.ok topic,
      { store with
        topics := store.topics ++ [topic]
        nextTopicId := store.nextTopicId + 1 })

/-- updateTopic action: owner-gated partial update.  The lookup and the update
both use `and(eq(FactTopics.id, id), eq(FactTopics.ownerId, user.id))`; a NULL
ownerId never matches. -/
def updateTopic (ctx : Option String) (input : UpdateTopicInput) (now : Nat)
    (store : Store) : Except Err Topic × Store :=
  match requireUser ctx with
  | Except.error e => (Except.error e, store)
  | Except.ok uid =>
    match store.topics.find? (fun t => t.id == input.id && t.ownerId == Option.some uid) with
    | Option.none => (Except.error Err.notFound, store)
    | Option.some existing =>
      if input.isEmpty then (Except.ok existing, store)
      else
        let upd : Topic → Topic := fun t =>
          { t with
            name := input.name.getD t.name
            description := applyOpt input.description t.description
            slug := applyOpt input.slug t.slug
            isActive := input.isActive.getD t.isActive
            updatedAt := now }
        (Except.ok (upd existing),
          { store with
            topics := store.topics.map (fun t =>
              if t.id == input.id && t.ownerId == Option.some uid then upd t else t) })

/-- listTopics action: select all, filter in memory.
`!topic.ownerId || topic.ownerId === user.id` and
`includeInactive ? true : topic.isActive`. -/
def listTopics (ctx : Option String) (input : Option ListTopicsInput)
    (store : Store) : Except Err (List Topic) :=
  match requireUser ctx with
  | Except.error e => Except.error e
  | Except.ok uid =>
    let includeInactive := (input.bind (fun i => i.includeInactive)).getD false
    Except.ok (store.topics.filter (fun t =>
      (!(jsTruthyText t.ownerId) || t.ownerId == Option.some uid) &&
        (includeInactive || t.isActive)))

/-- createFact action.  `if (input.topicId)` is a truthiness test, so a
topicId of 0 skips the topic-existence check. -/
def createFact (ctx : Option String) (input : CreateFactInput) (now : Nat)
    (store : Store) : Except Err Fact × Store :=
  match requireUser ctx with
  | Except.error e => (Except.error e, store)
  | Except.ok uid =>
    let fact : Fact :=
      { id := store.nextFactId
        topicId := input.topicId
        content := input.content
        difficulty := input.difficulty.getD Difficulty.basic
        source := input.source
        sourceMeta := input.sourceMeta
        origin := input.origin.getD Origin.ai
        ownerId := Option.some uid
        isActive := input.isActive.getD true
        createdAt := now
        updatedAt := now }
    let inserted : Except Err Fact × Store :=
      (Except.ok fact,
        { store with
          facts := store.facts ++ [fact]
          nextFactId := store.nextFactId + 1 })
    match input.topicId with
    | Option.some tid =>
      if tid == 0 then inserted
      else if topicExists store tid then inserted
      else (Except.error Err.notFound, store)
    | Option.none => inserted

/-- updateFact action: owner-gated partial update; a provided topicId
(`typeof rest.topicId !== "undefined"`, so 0 included) must reference an
existing topic. -/
def updateFact (ctx : Option String) (input : UpdateFactInput) (now : Nat)
    (store : Store) : Except Err Fact × Store :=
  match requireUser ctx with
  | Except.error e => (Except.error e, store)
  | Except.ok uid =>
    match store.facts.find? (fun f => f.id == input.id && f.ownerId == Option.some uid) with
    | Option.none => (Except.error Err.notFound, store)
    | Option.some existing =>
      let proceed : Except Err Fact × Store :=
        if input.isEmpty then (Except.ok existing, store)
        else
          let upd : Fact → Fact := fun f =>
            { f with
              topicId := applyOpt input.topicId f.topicId
              content := input.content.getD f.content
              difficulty := input.difficulty.getD f.difficulty
              source := applyOpt input.source f.source
              sourceMeta := applyOpt input.sourceMeta f.sourceMeta
              origin := input.origin.getD f.origin
              isActive := input.isActive.getD f.isActive
              updatedAt := now }
          (Except.ok (upd existing),
            { store with
              facts := store.facts.map (fun f =>
                if f.id == input.id && f.ownerId == Option.some uid then upd f else f) })
      match input.topicId with
      | Option.some tid =>
        if topicExists store tid then proceed else (Except.error Err.notFound, store)
      | Option.none => proceed

/-- listFacts action: select all, filter in memory.
`input?.topicId ? fact.topicId === input.topicId : true` is a truthiness test
(a filter of 0 is ignored); `!fact.ownerId || fact.ownerId === user.id`. -/
def listFacts (ctx : Option String) (input : Option ListFactsInput)
    (store : Store) : Except Err (List Fact) :=
  match requireUser ctx with
  | Except.error e => Except.error e
  | Except.ok uid =>
    let includeInactive := (input.bind (fun i => i.includeInactive)).getD false
    Except.ok (store.facts.filter (fun f =>
      (match input.bind (fun i => i.topicId) with
        | Option.some tid => if tid == 0 then true else f.topicId == Option.some tid
        | Option.none => true) &&
        (!(jsTruthyText f.ownerId) || f.ownerId == Option.some uid) &&
        (includeInactive || f.isActive)))

/-- createRequest action.  `if (input.topicId)` is a truthiness test, so a
topicId of 0 skips the topic-existence check; status defaults to pending. -/
def createRequest (ctx : Option String) (input : CreateRequestInput) (now : Nat)
    (store : Store) : Except Err FactRequest × Store :=
  match requireUser ctx with
  | Except.error e => (Except.error e, store)
  | Except.ok uid =>
    let req : FactRequest :=
      { id := store.nextRequestId
        userId := Option.some uid
        topicId := input.topicId
        prompt := input.prompt
        input := input.input
        output := input.output
        status := input.status.getD RequestStatus.pending
        createdAt := now }
    let inserted : Except Err FactRequest × Store :=
      (Except.ok req,
        { store with
          requests := store.requests ++ [req]
          nextRequestId := store.nextRequestId + 1 })
    match input.topicId with
    | Option.some tid =>
      if tid == 0 then inserted
      else if topicExists store tid then inserted
      else (Except.error Err.notFound, store)
    | Option.none => inserted

/-- Where-clause of the per-user state lookup:
`and(eq(UserFactState.factId, input.factId), eq(UserFactState.userId, user.id))`. -/
def statePred (factId : Nat) (uid : String) (s : UserFactState) : Bool :=
  s.factId == factId && s.userId == uid

/-- Merged values (`baseValues` in the source): each field takes the provided
value, else the existing row value, else the type default; createdAt is the
existing row's, else now; updatedAt is now.  The row id is supplied by the
caller (kept on update, fresh on insert). -/
def mergeState (uid : String) (input : UpdateUserFactStateInput)
    (existing : Option UserFactState) (now : Nat) (id : Nat) : UserFactState :=
  { id := id
    userId := uid
    factId := input.factId
    seen := input.seen.getD ((existing.map (fun e => e.seen)).getD false)
    seenAt := applyOpt input.seenAt (existing.bind (fun e => e.seenAt))
    isFavorite := input.isFavorite.getD ((existing.map (fun e => e.isFavorite)).getD false)
    reaction := input.reaction.getD ((existing.map (fun e => e.reaction)).getD Reaction.none)
    createdAt := (existing.map (fun e => e.createdAt)).getD now
    updatedAt := now }

/-- updateUserFactState action: read-modify-write upsert of the caller's
engagement state for a fact.  The fact-existence check is by id only. -/
def updateUserFactState (ctx : Option String) (input : UpdateUserFactStateInput)
    (now : Nat) (store : Store) : Except Err UserFactState × Store :=
  match requireUser ctx with
  | Except.error e => (Except.error e, store)
  | Except.ok uid =>
    match store.facts.find? (fun f => f.id == input.factId) with
    | Option.none => (Except.error Err.notFound, store)
    | Option.some _ =>
      match store.states.find? (statePred input.factId uid) with
      | Option.some existing =>
        let merged := mergeState uid input (Option.some existing) now existing.id
        (Except.ok merged,
          { store with
            states := store.states.map (fun s =>
              if s.id == existing.id then { merged with id := s.id } else s) })
      | Option.none =>
        let merged := mergeState uid input Option.none now store.nextStateId
        (Except.ok merged,
          { store with
            states := store.states ++ [merged]
            nextStateId := store.nextStateId + 1 })

/-- listUserFactState action: the caller's state rows, optionally only the
favorites (`input?.onlyFavorites ? _ : _`, a truthiness test). -/
def listUserFactState (ctx : Option String) (input : Option ListUserFactStateInput)
    (store : Store) : Except Err (List UserFactState) :=
  match requireUser ctx with
  | Except.error e => Except.error e
  | Except.ok uid =>
    let states := store.states.filter (fun s => s.userId == uid)
    Except.ok (if (input.bind (fun i => i.onlyFavorites)).getD false then
      states.filter (fun s => s.isFavorite) else states)


/-! ### Shared list lemmas -/

/-- A list of length at most one containing `a` is exactly `[a]`. -/
theorem length_le_one_eq_singleton {α : Type} {l : List α} {a : α}
    (hlen : l.length ≤ 1) (ha : a ∈ l) : l = [a] := by
  match l, ha with
  | [x], ha =>
    have : a = x := by simpa using ha
    simp [this]
  | x :: y :: t, ha => simp at hlen

/-- If the filtered list is the singleton `[a]`, then `find?` returns `a`. -/
theorem filter_singleton_find? {α : Type} {p : α → Bool} {l : List α} {a : α}
    (h : l.filter p = [a]) : l.find? p = Option.some a := by
  induction l with
  | nil => simp at h
  | cons x t ih =>
    by_cases hx : p x
    · rw [List.filter_cons_of_pos hx] at h
      obtain ⟨rfl, -⟩ := by simpa using h
      simp [List.find?_cons_of_pos _ hx]
    · rw [List.filter_cons_of_neg hx] at h
      rw [List.find?_cons_of_neg _ hx]
      exact ih h

/-- Fixtures used by concrete witnesses and counterexamples. -/
def aliceTopic : Topic :=
  { id := 1, ownerId := Option.some "alice", name := "Space",
    description := Option.none, slug := Option.none, isActive := true,
    createdAt := 0, updatedAt := 0 }

def aliceTopicStore : Store :=
  { topics := [aliceTopic], facts := [], requests := [], states := [],
    nextTopicId := 2, nextFactId := 1, nextRequestId := 1, nextStateId := 1 }

def renameTopicInput : UpdateTopicInput :=
  { id := 1, name := Option.some "Astronomy", description := Option.none,
    slug := Option.none, isActive := Option.none }

/-- C1: a caller who is not the topic's owner (in particular any caller, when
the topic's ownerId is unset) gets `NotFound` from updateTopic and the store is
unchanged: the owner-scoped lookup `and(eq(id), eq(ownerId, caller))` cannot
match the topic, and under distinct primary keys no other row can match its
id.  No update statement runs. -/
theorem claim_C1_updateTopic_nonowner_notFound
    (uid : String) (input : UpdateTopicInput) (now : Nat) (store : Store) (t : Topic)
    (hnodup : (store.topics.map (fun x => x.id)).Nodup)
    (ht : t ∈ store.topics) (hid : t.id = input.id)
    (howner : t.ownerId ≠ Option.some uid) :
    updateTopic (Option.some uid) input now store = (Except.error Err.notFound, store) := by
  have hnone : store.topics.find?
      (fun x => x.id == input.id && x.ownerId == Option.some uid) = Option.none := by
    refine List.find?_eq_none.mpr (fun x hx hpx => ?_)
    have hx2 : x.id = input.id ∧ x.ownerId = Option.some uid := by
      simpa using hpx
    have hxt : x = t :=
      List.inj_on_of_nodup_map hnodup hx ht (by rw [hx2.1, hid])
    exact howner (hxt ▸ hx2.2)
  simp [updateTopic, requireUser, hnone]

/-- C1 witness: user "bob" calling updateTopic on the topic owned by "alice"
fails `NotFound` and leaves the store unchanged. -/
theorem claim_C1_witness :
    ((aliceTopicStore.topics.map (fun x => x.id)).Nodup ∧
      aliceTopic ∈ aliceTopicStore.topics ∧ aliceTopic.id = renameTopicInput.id ∧
      aliceTopic.ownerId ≠ Option.some "bob") ∧
    updateTopic (Option.some "bob") renameTopicInput 9 aliceTopicStore =
      (Except.error Err.notFound, aliceTopicStore) :=
  ⟨⟨by decide, by decide, by decide, by decide⟩,
    claim_C1_updateTopic_nonowner_notFound "bob" renameTopicInput 9 aliceTopicStore
      aliceTopic (by decide) (by decide) (by decide) (by decide)⟩

/-- C8: every operation of the service, called with a request context holding
no authenticated user principal, fails `Unauthorized`, and the store is
unchanged (the mutating handlers return the store they were given; the list
handlers never write). -/
theorem claim_C8_unauthenticated_all_ops :
    (∀ input now store, createTopic Option.none input now store =
      (Except.error Err.unauthorized, store)) ∧
    (∀ input now store, updateTopic Option.none input now store =
      (Except.error Err.unauthorized, store)) ∧
    (∀ input store, listTopics Option.none input store = Except.error Err.unauthorized) ∧
    (∀ input now store, createFact Option.none input now store =
      (Except.error Err.unauthorized, store)) ∧
    (∀ input now store, updateFact Option.none input now store =
      (Except.error Err.unauthorized, store)) ∧
    (∀ input store, listFacts Option.none input store = Except.error Err.unauthorized) ∧
    (∀ input now store, createRequest Option.none input now store =
      (Except.error Err.unauthorized, store)) ∧
    (∀ input now store, updateUserFactState Option.none input now store =
      (Except.error Err.unauthorized, store)) ∧
    (∀ input store, listUserFactState Option.none input store = Except.error Err.unauthorized) :=
  ⟨fun _ _ _ => rfl, fun _ _ _ => rfl, fun _ _ => rfl, fun _ _ _ => rfl,
    fun _ _ _ => rfl, fun _ _ => rfl, fun _ _ _ => rfl, fun _ _ _ => rfl,
    fun _ _ => rfl⟩

def bobInactiveFact : Fact :=
  { id := 1, topicId := Option.none, content := "The sun is a star",
    difficulty := Difficulty.basic, source := Option.none, sourceMeta := Option.none,
    origin := Origin.ai, ownerId := Option.some "bob", isActive := false,
    createdAt := 0, updatedAt := 0 }

def bobFactStore : Store :=
  { topics := [], facts := [bobInactiveFact], requests := [], states := [],
    nextTopicId := 1, nextFactId := 2, nextRequestId := 1, nextStateId := 1 }

def markSeenInput : UpdateUserFactStateInput :=
  { factId := 1, seen := Option.some true, seenAt := Option.none,
    isFavorite := Option.none, reaction := Option.none }

/-- C10: updateUserFactState checks fact existence by id only
(`where(eq(Facts.id, input.factId))`): for any caller and any fact row with the
given id — whatever its ownerId and isActive — the call succeeds. -/
theorem claim_C10_updateUserFactState_any_fact
    (uid : String) (input : UpdateUserFactStateInput) (now : Nat) (store : Store)
    (f : Fact) (hf : f ∈ store.facts) (hid : f.id = input.factId) :
    ∃ st store1,
      updateUserFactState (Option.some uid) input now store = (Except.ok st, store1) := by
  cases hfind : store.facts.find? (fun x => x.id == input.factId) with
  | none =>
    exact absurd (List.find?_eq_none.mp hfind f hf) (by simp [hid])
  | some g =>
    cases hex : store.states.find? (statePred input.factId uid) with
    | some e =>
      refine ⟨mergeState uid input (Option.some e) now e.id,
        { store with states := store.states.map (fun s =>
            if s.id == e.id then
              { mergeState uid input (Option.some e) now e.id with id := s.id }
            else s) }, ?_⟩
      unfold updateUserFactState
      simp only [requireUser]
      rw [hfind, hex]
    | none =>
      refine ⟨mergeState uid input Option.none now store.nextStateId,
        { store with
          states := store.states ++ [mergeState uid input Option.none now store.nextStateId]
          nextStateId := store.nextStateId + 1 }, ?_⟩
      unfold updateUserFactState
      simp only [requireUser]
      rw [hfind, hex]

/-- C10 witness: user "alice" can upsert engagement state for an inactive fact
owned by "bob". -/
theorem claim_C10_witness :
    (bobInactiveFact ∈ bobFactStore.facts ∧ bobInactiveFact.id = markSeenInput.factId ∧
      bobInactiveFact.ownerId = Option.some "bob" ∧ bobInactiveFact.isActive = false) ∧
    (∃ st store1, updateUserFactState (Option.some "alice") markSeenInput 5 bobFactStore =
      (Except.ok st, store1)) :=
  ⟨⟨by decide, by decide, by decide, by decide⟩,
    claim_C10_updateUserFactState_any_fact "alice" markSeenInput 5 bobFactStore
      bobInactiveFact (by decide) (by decide)⟩

def emptyStore : Store :=
  { topics := [], facts := [], requests := [], states := [],
    nextTopicId := 1, nextFactId := 1, nextRequestId := 1, nextStateId := 1 }

def zeroTopicFactInput : CreateFactInput :=
  { topicId := Option.some 0, content := "The sun is a star",
    difficulty := Option.none, source := Option.none, sourceMeta := Option.none,
    origin := Option.none, isActive := Option.none }

/-- C2 counterexample: calling createFact with topicId = 0 on a store that has
no topic with id 0 does not fail `NotFound` — `if (input.topicId)` is a
truthiness test, so the existence check is skipped — and a Fact row referencing
the missing topic is inserted. -/
theorem claim_C2_counterexample :
    topicExists emptyStore 0 = false ∧
    (createFact (Option.some "alice") zeroTopicFactInput 3 emptyStore).1 ≠
      Except.error Err.notFound ∧
    ((createFact (Option.some "alice") zeroTopicFactInput 3 emptyStore).2).facts ≠
      emptyStore.facts := by
  refine ⟨rfl, ?_, ?_⟩ <;> decide

/-- C2 amended: with a nonzero topicId referencing no existing topic,
createFact and createRequest fail `NotFound` with the store unchanged; for
updateFact this holds for every provided topicId (it tests
`typeof rest.topicId !== "undefined"`, not truthiness).  With topicId = 0,
createFact and createRequest skip the check and insert. -/
theorem claim_C2_amended_missing_topic_notFound :
    (∀ (uid : String) (input : CreateFactInput) (now : Nat) (store : Store) (tid : Nat),
      input.topicId = Option.some tid → tid ≠ 0 → topicExists store tid = false →
      createFact (Option.some uid) input now store = (Except.error Err.notFound, store)) ∧
    (∀ (uid : String) (input : CreateRequestInput) (now : Nat) (store : Store) (tid : Nat),
      input.topicId = Option.some tid → tid ≠ 0 → topicExists store tid = false →
      createRequest (Option.some uid) input now store = (Except.error Err.notFound, store)) ∧
    (∀ (uid : String) (input : UpdateFactInput) (now : Nat) (store : Store) (tid : Nat),
      input.topicId = Option.some tid → topicExists store tid = false →
      updateFact (Option.some uid) input now store = (Except.error Err.notFound, store)) := by
  refine ⟨?_, ?_, ?_⟩
  · intro uid input now store tid htid hne hex
    simp [createFact, requireUser, htid, hne, hex]
  · intro uid input now store tid htid hne hex
    simp [createRequest, requireUser, htid, hne, hex]
  · intro uid input now store tid htid hex
    cases hf : store.facts.find? (fun x => x.id == input.id && x.ownerId == Option.some uid) with
    | none => simp [updateFact, requireUser, hf]
    | some ex => simp [updateFact, requireUser, hf, htid, hex]

def missingTopicFactInput : CreateFactInput :=
  { zeroTopicFactInput with topicId := Option.some 7 }

def missingTopicReqInput : CreateRequestInput :=
  { topicId := Option.some 7, prompt := Option.none, input := Option.none,
    output := Option.none, status := Option.none }

def missingTopicUpdFactInput : UpdateFactInput :=
  { id := 1, topicId := Option.some 7, content := Option.none,
    difficulty := Option.none, source := Option.none, sourceMeta := Option.none,
    origin := Option.none, isActive := Option.none }

/-- C2 witness: topic 7 does not exist in the empty store, and all three
operations called with topicId = 7 fail `NotFound` leaving the store
unchanged. -/
theorem claim_C2_witness :
    (topicExists emptyStore 7 = false ∧ (7 : Nat) ≠ 0) ∧
    createFact (Option.some "alice") missingTopicFactInput 3 emptyStore =
      (Except.error Err.notFound, emptyStore) ∧
    createRequest (Option.some "alice") missingTopicReqInput 3 emptyStore =
      (Except.error Err.notFound, emptyStore) ∧
    updateFact (Option.some "alice") missingTopicUpdFactInput 3 emptyStore =
      (Except.error Err.notFound, emptyStore) :=
  ⟨⟨by decide, by decide⟩,
    claim_C2_amended_missing_topic_notFound.1 "alice" missingTopicFactInput 3 emptyStore 7
      rfl (by decide) (by decide),
    claim_C2_amended_missing_topic_notFound.2.1 "alice" missingTopicReqInput 3 emptyStore 7
      rfl (by decide) (by decide),
    claim_C2_amended_missing_topic_notFound.2.2 "alice" missingTopicUpdFactInput 3 emptyStore 7
      rfl (by decide)⟩

/-- C9: a successful createRequest call whose input omits status inserts a
FactRequest row with status "pending" (the handler supplies
`input.status ?? "pending"`), userId = caller and createdAt = now. -/
theorem claim_C9_createRequest_defaults
    (uid : String) (input : CreateRequestInput) (now : Nat) (store : Store)
    (hstatus : input.status = Option.none) (req : FactRequest) (store1 : Store)
    (hok : createRequest (Option.some uid) input now store = (Except.ok req, store1)) :
    req.status = RequestStatus.pending ∧ req.userId = Option.some uid ∧
      req.createdAt = now ∧ store1.requests = store.requests ++ [req] := by
  cases htid : input.topicId with
  | none =>
    simp only [createRequest, requireUser, htid] at hok
    simp only [Prod.mk.injEq, Except.ok.injEq] at hok
    obtain ⟨rfl, rfl⟩ := hok
    simp [hstatus]
  | some tid =>
    simp only [createRequest, requireUser, htid] at hok
    split at hok
    · simp only [Prod.mk.injEq, Except.ok.injEq] at hok
      obtain ⟨rfl, rfl⟩ := hok
      simp [hstatus]
    · split at hok
      · simp only [Prod.mk.injEq, Except.ok.injEq] at hok
        obtain ⟨rfl, rfl⟩ := hok
        simp [hstatus]
      · simp at hok

def defaultStatusReqInput : CreateRequestInput :=
  { topicId := Option.none, prompt := Option.some "five facts about space",
    input := Option.none, output := Option.none, status := Option.none }

def demoReq : FactRequest :=
  { id := 1, userId := Option.some "alice", topicId := Option.none,
    prompt := Option.some "five facts about space", input := Option.none,
    output := Option.none, status := RequestStatus.pending, createdAt := 4 }

def demoReqStore : Store :=
  { emptyStore with requests := [demoReq], nextRequestId := 2 }

/-- C9 witness: a concrete status-omitting createRequest call by "alice"
inserts the pending request row. -/
theorem claim_C9_witness :
    (defaultStatusReqInput.status = Option.none ∧
      createRequest (Option.some "alice") defaultStatusReqInput 4 emptyStore =
        (Except.ok demoReq, demoReqStore)) ∧
    (demoReq.status = RequestStatus.pending ∧ demoReq.userId = Option.some "alice" ∧
      demoReq.createdAt = 4 ∧ demoReqStore.requests = emptyStore.requests ++ [demoReq]) :=
  ⟨⟨rfl, by decide⟩,
    claim_C9_createRequest_defaults "alice" defaultStatusReqInput 4 emptyStore rfl
      demoReq demoReqStore (by decide)⟩

/-- C5: owner-scoped partial updates apply exactly the provided fields; every
omitted field keeps its prior value; an all-omitted update returns the
existing row with the store untouched (updatedAt included); otherwise
updatedAt = now.  First conjunct: updateTopic; second: updateFact (whose
provided topicId must pass the existence check for the update to run). -/
theorem claim_C5_partial_update_frame :
    (∀ (uid : String) (input : UpdateTopicInput) (now : Nat) (store : Store) (ex : Topic),
      store.topics.find? (fun t => t.id == input.id && t.ownerId == Option.some uid) =
        Option.some ex →
      (input.isEmpty = true →
        updateTopic (Option.some uid) input now store = (Except.ok ex, store)) ∧
      (input.isEmpty = false → ∃ st store1,
        updateTopic (Option.some uid) input now store = (Except.ok st, store1) ∧
        st.name = input.name.getD ex.name ∧
        st.description = applyOpt input.description ex.description ∧
        st.slug = applyOpt input.slug ex.slug ∧
        st.isActive = input.isActive.getD ex.isActive ∧
        st.id = ex.id ∧ st.ownerId = ex.ownerId ∧ st.createdAt = ex.createdAt ∧
        st.updatedAt = now)) ∧
    (∀ (uid : String) (input : UpdateFactInput) (now : Nat) (store : Store) (ex : Fact),
      store.facts.find? (fun f => f.id == input.id && f.ownerId == Option.some uid) =
        Option.some ex →
      (∀ tid, input.topicId = Option.some tid → topicExists store tid = true) →
      (input.isEmpty = true →
        updateFact (Option.some uid) input now store = (Except.ok ex, store)) ∧
      (input.isEmpty = false → ∃ st store1,
        updateFact (Option.some uid) input now store = (Except.ok st, store1) ∧
        st.topicId = applyOpt input.topicId ex.topicId ∧
        st.content = input.content.getD ex.content ∧
        st.difficulty = input.difficulty.getD ex.difficulty ∧
        st.source = applyOpt input.source ex.source ∧
        st.sourceMeta = applyOpt input.sourceMeta ex.sourceMeta ∧
        st.origin = input.origin.getD ex.origin ∧
        st.isActive = input.isActive.getD ex.isActive ∧
        st.id = ex.id ∧ st.ownerId = ex.ownerId ∧ st.createdAt = ex.createdAt ∧
        st.updatedAt = now)) := by
  constructor
  · intro uid input now store ex hfind
    constructor
    · intro hempty
      simp [updateTopic, requireUser, hfind, hempty]
    · intro hempty
      refine ⟨{ ex with
          name := input.name.getD ex.name
          description := applyOpt input.description ex.description
          slug := applyOpt input.slug ex.slug
          isActive := input.isActive.getD ex.isActive
          updatedAt := now },
        { store with topics := store.topics.map (fun t =>
            if t.id == input.id && t.ownerId == Option.some uid then
              { t with
                name := input.name.getD t.name
                description := applyOpt input.description t.description
                slug := applyOpt input.slug t.slug
                isActive := input.isActive.getD t.isActive
                updatedAt := now }
            else t) }, ?_, rfl, rfl, rfl, rfl, rfl, rfl, rfl, rfl⟩
      simp [updateTopic, requireUser, hfind, hempty]
  · intro uid input now store ex hfind htid
    constructor
    · intro hempty
      cases htc : input.topicId with
      | none => simp [updateFact, requireUser, hfind, htc, hempty]
      | some tid =>
        have hte := htid tid htc
        simp [updateFact, requireUser, hfind, htc, hte, hempty]
    · intro hempty
      refine ⟨{ ex with
          topicId := applyOpt input.topicId ex.topicId
          content := input.content.getD ex.content
          difficulty := input.difficulty.getD ex.difficulty
          source := applyOpt input.source ex.source
          sourceMeta := applyOpt input.sourceMeta ex.sourceMeta
          origin := input.origin.getD ex.origin
          isActive := input.isActive.getD ex.isActive
          updatedAt := now },
        { store with facts := store.facts.map (fun f =>
            if f.id == input.id && f.ownerId == Option.some uid then
              { f with
                topicId := applyOpt input.topicId f.topicId
                content := input.content.getD f.content
                difficulty := input.difficulty.getD f.difficulty
                source := applyOpt input.source f.source
                sourceMeta := applyOpt input.sourceMeta f.sourceMeta
                origin := input.origin.getD f.origin
                isActive := input.isActive.getD f.isActive
                updatedAt := now }
            else f) }, ?_, rfl, rfl, rfl, rfl, rfl, rfl, rfl, rfl, rfl, rfl, rfl⟩
      cases htc : input.topicId with
      | none => simp [updateFact, requireUser, hfind, htc, hempty]
      | some tid =>
        have hte := htid tid htc
        simp [updateFact, requireUser, hfind, htc, hte, hempty]

def noopTopicInput : UpdateTopicInput :=
  { id := 1, name := Option.none, description := Option.none, slug := Option.none,
    isActive := Option.none }

def aliceFact : Fact :=
  { id := 1, topicId := Option.none, content := "Saturn has rings",
    difficulty := Difficulty.basic, source := Option.none, sourceMeta := Option.none,
    origin := Origin.ai, ownerId := Option.some "alice", isActive := true,
    createdAt := 0, updatedAt := 0 }

def aliceFactStore : Store :=
  { topics := [], facts := [aliceFact], requests := [], states := [],
    nextTopicId := 1, nextFactId := 2, nextRequestId := 1, nextStateId := 1 }

def contentUpdFactInput : UpdateFactInput :=
  { id := 1, topicId := Option.none, content := Option.some "Saturn has many rings",
    difficulty := Option.none, source := Option.none, sourceMeta := Option.none,
    origin := Option.none, isActive := Option.none }

def noopUpdFactInput : UpdateFactInput :=
  { id := 1, topicId := Option.none, content := Option.none,
    difficulty := Option.none, source := Option.none, sourceMeta := Option.none,
    origin := Option.none, isActive := Option.none }

/-- C5 witness: for owner "alice", the all-omitted updates return the existing
rows with the store untouched, and single-field updates change only that field
plus updatedAt. -/
theorem claim_C5_witness :
    (renameTopicInput.isEmpty = false ∧ noopTopicInput.isEmpty = true ∧
      contentUpdFactInput.isEmpty = false ∧ noopUpdFactInput.isEmpty = true) ∧
    updateTopic (Option.some "alice") noopTopicInput 9 aliceTopicStore =
      (Except.ok aliceTopic, aliceTopicStore) ∧
    (∃ st store1,
      updateTopic (Option.some "alice") renameTopicInput 9 aliceTopicStore =
        (Except.ok st, store1) ∧
      st.name = renameTopicInput.name.getD aliceTopic.name ∧
      st.description = applyOpt renameTopicInput.description aliceTopic.description ∧
      st.slug = applyOpt renameTopicInput.slug aliceTopic.slug ∧
      st.isActive = renameTopicInput.isActive.getD aliceTopic.isActive ∧
      st.id = aliceTopic.id ∧ st.ownerId = aliceTopic.ownerId ∧
      st.createdAt = aliceTopic.createdAt ∧ st.updatedAt = 9) ∧
    updateFact (Option.some "alice") noopUpdFactInput 9 aliceFactStore =
      (Except.ok aliceFact, aliceFactStore) ∧
    (∃ st store1,
      updateFact (Option.some "alice") contentUpdFactInput 9 aliceFactStore =
        (Except.ok st, store1) ∧
      st.topicId = applyOpt contentUpdFactInput.topicId aliceFact.topicId ∧
      st.content = contentUpdFactInput.content.getD aliceFact.content ∧
      st.difficulty = contentUpdFactInput.difficulty.getD aliceFact.difficulty ∧
      st.source = applyOpt contentUpdFactInput.source aliceFact.source ∧
      st.sourceMeta = applyOpt contentUpdFactInput.sourceMeta aliceFact.sourceMeta ∧
      st.origin = contentUpdFactInput.origin.getD aliceFact.origin ∧
      st.isActive = contentUpdFactInput.isActive.getD aliceFact.isActive ∧
      st.id = aliceFact.id ∧ st.ownerId = aliceFact.ownerId ∧
      st.createdAt = aliceFact.createdAt ∧ st.updatedAt = 9) := by
  refine ⟨⟨by decide, by decide, by decide, by decide⟩, ?_, ?_, ?_, ?_⟩
  · exact (claim_C5_partial_update_frame.1 "alice" noopTopicInput 9 aliceTopicStore
      aliceTopic (by decide)).1 (by decide)
  · exact (claim_C5_partial_update_frame.1 "alice" renameTopicInput 9 aliceTopicStore
      aliceTopic (by decide)).2 (by decide)
  · exact (claim_C5_partial_update_frame.2 "alice" noopUpdFactInput 9 aliceFactStore
      aliceFact (by decide) (fun tid h => by simp [noopUpdFactInput] at h)).1 (by decide)
  · exact (claim_C5_partial_update_frame.2 "alice" contentUpdFactInput 9 aliceFactStore
      aliceFact (by decide) (fun tid h => by simp [contentUpdFactInput] at h)).2 (by decide)

/-- A nullable text column is falsy exactly when it is NULL or the empty
string. -/
theorem jsTruthyText_eq_false (o : Option String) :
    jsTruthyText o = false ↔ o = Option.none ∨ o = Option.some "" := by
  cases o with
  | none => simp [jsTruthyText]
  | some s => simp [jsTruthyText]

/-- Spec-side visibility predicate for listTopics, following the spec wording
amended for JS truthiness: a topic is visible to `uid` iff its ownerId is
unset or the empty string or equals `uid`, and it is active unless
includeInactive was requested. -/
def specVisibleTopic (uid : String) (includeInactive : Bool) (t : Topic) : Prop :=
  (t.ownerId = Option.none ∨ t.ownerId = Option.some "" ∨ t.ownerId = Option.some uid) ∧
    (includeInactive = true ∨ t.isActive = true)

def emptyOwnerTopic : Topic :=
  { id := 1, ownerId := Option.some "", name := "Shared", description := Option.none,
    slug := Option.none, isActive := true, createdAt := 0, updatedAt := 0 }

def emptyOwnerTopicStore : Store :=
  { topics := [emptyOwnerTopic], facts := [], requests := [], states := [],
    nextTopicId := 2, nextFactId := 1, nextRequestId := 1, nextStateId := 1 }

/-- C6 counterexample: a topic whose ownerId is set to the empty string — a
value different from the caller "alice" — is returned by listTopics, because
`!topic.ownerId` is a truthiness test that treats "" like an unset owner.  So
listTopics does not return exactly the topics with (ownerId unset OR
ownerId = caller). -/
theorem claim_C6_counterexample :
    listTopics (Option.some "alice") Option.none emptyOwnerTopicStore =
      Except.ok [emptyOwnerTopic] ∧
    emptyOwnerTopic.ownerId ≠ Option.none ∧
    emptyOwnerTopic.ownerId ≠ Option.some "alice" := by
  refine ⟨by decide, by decide, by decide⟩

/-- C6 amended: listTopics returns exactly the topics satisfying (ownerId
unset OR ownerId = "" OR ownerId = caller) AND (isActive OR includeInactive
requested). -/
theorem claim_C6_amended_listTopics_filter
    (uid : String) (input : Option ListTopicsInput) (store : Store) :
    ∃ l, listTopics (Option.some uid) input store = Except.ok l ∧
      ∀ t, t ∈ l ↔ t ∈ store.topics ∧
        specVisibleTopic uid ((input.bind (fun i => i.includeInactive)).getD false) t := by
  refine ⟨_, rfl, fun t => ?_⟩
  rw [List.mem_filter]
  refine and_congr_right (fun _ => ?_)
  simp only [Bool.and_eq_true, Bool.or_eq_true, Bool.not_eq_true']
  rw [jsTruthyText_eq_false]
  simp [specVisibleTopic, or_assoc]

/-- Spec-side visibility predicate for listFacts, following the spec wording
amended for JS truthiness: the topicId filter applies only when given and
nonzero (a filter of 0 is ignored), and an empty-string ownerId counts as
unowned. -/
def specVisibleFact (uid : String) (tidFilter : Option Nat) (includeInactive : Bool)
    (f : Fact) : Prop :=
  (∀ tid, tidFilter = Option.some tid → tid ≠ 0 → f.topicId = Option.some tid) ∧
    (f.ownerId = Option.none ∨ f.ownerId = Option.some "" ∨ f.ownerId = Option.some uid) ∧
    (includeInactive = true ∨ f.isActive = true)

def orphanFact : Fact :=
  { id := 1, topicId := Option.some 5, content := "Mars is red",
    difficulty := Difficulty.basic, source := Option.none, sourceMeta := Option.none,
    origin := Origin.ai, ownerId := Option.none, isActive := true,
    createdAt := 0, updatedAt := 0 }

def orphanFactStore : Store :=
  { topics := [], facts := [orphanFact], requests := [], states := [],
    nextTopicId := 1, nextFactId := 2, nextRequestId := 1, nextStateId := 1 }

def zeroFilterInput : ListFactsInput :=
  { topicId := Option.some 0, includeInactive := Option.none }

/-- C7 counterexample: with a topicId filter of 0 — a given topicId argument —
listFacts returns a fact whose topicId is 5, because
`input?.topicId ? _ : true` is a truthiness test that ignores a filter of 0.
So listFacts does not return exactly the facts whose topicId equals the given
filter. -/
theorem claim_C7_counterexample :
    listFacts (Option.some "alice") (Option.some zeroFilterInput) orphanFactStore =
      Except.ok [orphanFact] ∧
    zeroFilterInput.topicId = Option.some 0 ∧
    orphanFact.topicId ≠ Option.some 0 := by
  refine ⟨by decide, by decide, by decide⟩

/-- C7 amended: listFacts returns exactly the facts satisfying (topicId =
filter whenever a nonzero topicId filter is given; a filter of 0 is ignored)
AND (ownerId unset OR "" OR = caller) AND (isActive OR includeInactive
requested). -/
theorem claim_C7_amended_listFacts_filter
    (uid : String) (input : Option ListFactsInput) (store : Store) :
    ∃ l, listFacts (Option.some uid) input store = Except.ok l ∧
      ∀ f, f ∈ l ↔ f ∈ store.facts ∧
        specVisibleFact uid (input.bind (fun i => i.topicId))
          ((input.bind (fun i => i.includeInactive)).getD false) f := by
  refine ⟨_, rfl, fun f => ?_⟩
  rw [List.mem_filter]
  refine and_congr_right (fun _ => ?_)
  cases htf : input.bind (fun i => i.topicId) with
  | none =>
    simp only [Bool.and_eq_true, Bool.or_eq_true, Bool.not_eq_true']
    rw [jsTruthyText_eq_false]
    simp [specVisibleFact, or_assoc]
  | some tid =>
    by_cases h0 : tid = 0
    · subst h0
      simp only [Bool.and_eq_true, Bool.or_eq_true, Bool.not_eq_true']
      rw [jsTruthyText_eq_false]
      simp [specVisibleFact, or_assoc]
    · simp only [Bool.and_eq_true, Bool.or_eq_true, Bool.not_eq_true']
      rw [jsTruthyText_eq_false]
      simp [specVisibleFact, or_assoc, and_assoc, h0]

/-- Replacing, in a list whose only `p`-match is `e` and whose elements have
ids equal to `e.id` only at `e` itself, the row with id `e.id` by the row `m`
(which matches `p` and carries the id `e.id`) leaves `[m]` as the only
`p`-match. -/
theorem filter_replace_eq {l : List UserFactState} {p : UserFactState → Bool}
    {e m : UserFactState}
    (hpe : p e = true) (hpm : p m = true) (hmid : m.id = e.id)
    (huniq : ∀ s ∈ l, s.id = e.id → s = e)
    (hfilter : l.filter p = [e]) :
    (l.map (fun s => if s.id == e.id then { m with id := s.id } else s)).filter p = [m] := by
  induction l with
  | nil => simp at hfilter
  | cons x t ih =>
    by_cases hx : p x = true
    · rw [List.filter_cons_of_pos hx] at hfilter
      have hxe : x = e ∧ t.filter p = [] := by simpa using hfilter
      obtain ⟨rfl, hft⟩ := hxe
      have hft2 : ∀ s0 ∈ t, ¬ p s0 = true := List.filter_eq_nil_iff.mp hft
      have hhead : (if (x.id == x.id) = true then { m with id := x.id } else x) = m := by
        rw [if_pos (by simp), ← hmid]
      rw [List.map_cons, hhead, List.filter_cons_of_pos hpm]
      have htail : (t.map (fun s => if s.id == x.id then { m with id := s.id } else s)).filter p
          = [] := by
        refine List.filter_eq_nil_iff.mpr ?_
        intro s hs
        obtain ⟨s0, hs0, rfl⟩ := List.mem_map.mp hs
        have hnp := hft2 s0 hs0
        by_cases hid : (s0.id == x.id) = true
        · exfalso
          have hs0e : s0 = x := huniq s0 (List.mem_cons_of_mem _ hs0) (by simpa using hid)
          exact hnp (hs0e ▸ hpe)
        · simp only [if_neg hid]
          exact hnp
      rw [htail]
    · rw [List.filter_cons_of_neg hx] at hfilter
      have hxid : ¬ (x.id == e.id) = true := by
        intro hid
        have hxe : x = e := huniq x (List.mem_cons_self _ _) (by simpa using hid)
        exact hx (hxe ▸ hpe)
      rw [List.map_cons]
      simp only [if_neg hxid]
      rw [List.filter_cons_of_neg hx]
      exact ih (fun s hs hid => huniq s (List.mem_cons_of_mem _ hs) hid) hfilter

/-- The in-place update `set(baseValues)` keeps every row id unchanged. -/
theorem map_replace_id (l : List UserFactState) (eid : Nat) (m : UserFactState) :
    (l.map (fun s => if s.id == eid then { m with id := s.id } else s)).map (fun s => s.id) =
      l.map (fun s => s.id) := by
  induction l with
  | nil => rfl
  | cons x t ih =>
    by_cases h : (x.id == eid) = true
    · simp only [List.map_cons, if_pos h, ih]
    · simp only [List.map_cons, if_neg h, ih]

/-- One successful updateUserFactState call on a well-formed store: it returns
the merged row, leaves it as the unique state row of the (caller, factId)
pair, preserves well-formedness and does not touch the Facts table. -/
theorem updateUserFactState_step
    (uid : String) (input : UpdateUserFactStateInput) (now : Nat) (store : Store)
    (hfact : (store.facts.find? (fun f => f.id == input.factId)).isSome = true)
    (hnodup : (store.states.map (fun s => s.id)).Nodup)
    (hbound : ∀ s ∈ store.states, s.id < store.nextStateId)
    (hpair : (store.states.filter (statePred input.factId uid)).length ≤ 1) :
    ∃ st store1,
      updateUserFactState (Option.some uid) input now store = (Except.ok st, store1) ∧
      st = mergeState uid input (store.states.find? (statePred input.factId uid)) now st.id ∧
      (∀ e, store.states.find? (statePred input.factId uid) = Option.some e → st.id = e.id) ∧
      store1.states.filter (statePred input.factId uid) = [st] ∧
      (store1.states.map (fun s => s.id)).Nodup ∧
      (∀ s ∈ store1.states, s.id < store1.nextStateId) ∧
      store1.facts = store.facts := by
  obtain ⟨g, hg⟩ := Option.isSome_iff_exists.mp hfact
  cases hex : store.states.find? (statePred input.factId uid) with
  | some e =>
    have hpe : statePred input.factId uid e = true := List.find?_some hex
    have hmem : e ∈ store.states := List.mem_of_find?_eq_some hex
    have hfil : store.states.filter (statePred input.factId uid) = [e] :=
      length_le_one_eq_singleton hpair (List.mem_filter.mpr ⟨hmem, hpe⟩)
    have huniq : ∀ s ∈ store.states, s.id = e.id → s = e := fun s hs hid =>
      List.inj_on_of_nodup_map hnodup hs hmem hid
    refine ⟨mergeState uid input (Option.some e) now e.id,
      { store with states := store.states.map (fun s =>
          if s.id == e.id then
            { mergeState uid input (Option.some e) now e.id with id := s.id } else s) },
      ?_, rfl, ?_, ?_, ?_, ?_, rfl⟩
    · unfold updateUserFactState
      simp only [requireUser]
      rw [hg, hex]
    · intro e2 he2
      injection he2 with he3
      rw [he3]
      rfl
    · exact filter_replace_eq hpe (by simp [statePred, mergeState]) rfl huniq hfil
    · rw [map_replace_id]
      exact hnodup
    · intro s hs
      obtain ⟨s0, hs0, rfl⟩ := List.mem_map.mp hs
      by_cases h : (s0.id == e.id) = true
      · simpa [h] using hbound s0 hs0
      · simpa [h] using hbound s0 hs0
  | none =>
    have hnone : ∀ s ∈ store.states, ¬ statePred input.factId uid s = true :=
      List.find?_eq_none.mp hex
    refine ⟨mergeState uid input Option.none now store.nextStateId,
      { store with
        states := store.states ++ [mergeState uid input Option.none now store.nextStateId]
        nextStateId := store.nextStateId + 1 },
      ?_, rfl, ?_, ?_, ?_, ?_, rfl⟩
    · unfold updateUserFactState
      simp only [requireUser]
      rw [hg, hex]
    · intro e2 he2
      exact Option.noConfusion he2
    · rw [List.filter_append, List.filter_eq_nil_iff.mpr hnone, List.nil_append]
      simp [statePred, mergeState]
    · rw [List.map_append, List.nodup_append]
      refine ⟨hnodup, List.nodup_singleton _, ?_⟩
      intro a ha hb
      obtain ⟨s, hs, rfl⟩ := List.mem_map.mp ha
      have hb2 : s.id = store.nextStateId := by simpa using hb
      exact Nat.lt_irrefl _ (hb2 ▸ hbound s hs)
    · intro s hs
      rcases List.mem_append.mp hs with h1 | h2
      · exact Nat.lt_succ_of_lt (hbound s h1)
      · have hs2 : s = mergeState uid input Option.none now store.nextStateId := by
          simpa using h2
        rw [hs2]
        exact Nat.lt_succ_self _

/-- C3: two sequential updateUserFactState calls with identical arguments, on
a well-formed store (distinct row ids, fresh auto-increment counter, at most
one state row for the pair — the invariant the upsert maintains) where the
fact exists, leave exactly one state row for (caller, factId), and that row is
the merged result computed by the second call from the first call's row. -/
theorem claim_C3_updateUserFactState_idempotent
    (uid : String) (input : UpdateUserFactStateInput) (now1 now2 : Nat) (store : Store)
    (hfact : (store.facts.find? (fun f => f.id == input.factId)).isSome = true)
    (hnodup : (store.states.map (fun s => s.id)).Nodup)
    (hbound : ∀ s ∈ store.states, s.id < store.nextStateId)
    (hpair : (store.states.filter (statePred input.factId uid)).length ≤ 1) :
    ∃ st1 store1 st2 store2,
      updateUserFactState (Option.some uid) input now1 store = (Except.ok st1, store1) ∧
      updateUserFactState (Option.some uid) input now2 store1 = (Except.ok st2, store2) ∧
      store2.states.filter (statePred input.factId uid) = [st2] ∧
      st2 = mergeState uid input (Option.some st1) now2 st1.id := by
  obtain ⟨st1, store1, h1, hst1, hid1, hfil1, hnodup1, hbound1, hfacts1⟩ :=
    updateUserFactState_step uid input now1 store hfact hnodup hbound hpair
  have hfact1 : (store1.facts.find? (fun f => f.id == input.factId)).isSome = true := by
    rw [hfacts1]
    exact hfact
  have hpair1 : (store1.states.filter (statePred input.factId uid)).length ≤ 1 := by
    rw [hfil1]
    exact Nat.le_refl 1
  obtain ⟨st2, store2, h2, hst2, hid2, hfil2, hn2, hb2, hf2⟩ :=
    updateUserFactState_step uid input now2 store1 hfact1 hnodup1 hbound1 hpair1
  have hfind1 : store1.states.find? (statePred input.factId uid) = Option.some st1 :=
    filter_singleton_find? hfil1
  refine ⟨st1, store1, st2, store2, h1, h2, hfil2, ?_⟩
  rw [hst2, hfind1, hid2 st1 hfind1]

/-- C3 witness: user "carol" marks fact 1 seen twice in a row on a store with
no prior state rows; exactly one state row for the pair remains. -/
theorem claim_C3_witness :
    ((bobFactStore.facts.find? (fun f => f.id == markSeenInput.factId)).isSome = true ∧
      (bobFactStore.states.map (fun s => s.id)).Nodup ∧
      (∀ s ∈ bobFactStore.states, s.id < bobFactStore.nextStateId) ∧
      (bobFactStore.states.filter (statePred markSeenInput.factId "carol")).length ≤ 1) ∧
    (∃ st1 store1 st2 store2,
      updateUserFactState (Option.some "carol") markSeenInput 5 bobFactStore =
        (Except.ok st1, store1) ∧
      updateUserFactState (Option.some "carol") markSeenInput 6 store1 =
        (Except.ok st2, store2) ∧
      store2.states.filter (statePred markSeenInput.factId "carol") = [st2] ∧
      st2 = mergeState "carol" markSeenInput (Option.some st1) 6 st1.id) :=
  ⟨⟨by decide, by decide, by decide, by decide⟩,
    claim_C3_updateUserFactState_idempotent "carol" markSeenInput 5 6 bobFactStore
      (by decide) (by decide) (by decide) (by decide)⟩

def markFavoriteInput : UpdateUserFactStateInput :=
  { factId := 1, seen := Option.none, seenAt := Option.none,
    isFavorite := Option.some true, reaction := Option.none }

/-- The state row left for ("bob", fact 1) by the seen-then-favorite
scenario. -/
def seenAndFavoriteRow : UserFactState :=
  { id := 1, userId := "bob", factId := 1, seen := true, seenAt := Option.none,
    isFavorite := true, reaction := Reaction.none, createdAt := 5, updatedAt := 6 }

/-- C4: updateUserFactState computes each field as the provided value, else
the existing row value, else the type default (seen = false,
isFavorite = false, reaction = "none", seenAt unset); when an existing row is
found it is updated in place, keeping its id and createdAt and refreshing
updatedAt; otherwise a new row is appended with createdAt = updatedAt = now.
Second conjunct: the seen-then-favorite scenario merges (seen stays true). -/
theorem claim_C4_merge_semantics :
    (∀ (uid : String) (input : UpdateUserFactStateInput) (now : Nat) (store : Store),
      (store.facts.find? (fun f => f.id == input.factId)).isSome = true →
      ∃ st store1,
        updateUserFactState (Option.some uid) input now store = (Except.ok st, store1) ∧
        st.seen = input.seen.getD
          (((store.states.find? (statePred input.factId uid)).map
            (fun e => e.seen)).getD false) ∧
        st.seenAt = applyOpt input.seenAt
          ((store.states.find? (statePred input.factId uid)).bind (fun e => e.seenAt)) ∧
        st.isFavorite = input.isFavorite.getD
          (((store.states.find? (statePred input.factId uid)).map
            (fun e => e.isFavorite)).getD false) ∧
        st.reaction = input.reaction.getD
          (((store.states.find? (statePred input.factId uid)).map
            (fun e => e.reaction)).getD Reaction.none) ∧
        st.createdAt = ((store.states.find? (statePred input.factId uid)).map
          (fun e => e.createdAt)).getD now ∧
        st.updatedAt = now ∧
        (store.states.find? (statePred input.factId uid) = Option.none →
          store1.states = store.states ++ [st]) ∧
        (∀ e, store.states.find? (statePred input.factId uid) = Option.some e →
          st.id = e.id ∧ store1.states = store.states.map (fun s =>
            if s.id == e.id then { st with id := s.id } else s))) ∧
    (∃ r, ((updateUserFactState (Option.some "bob") markFavoriteInput 6
        (updateUserFactState (Option.some "bob") markSeenInput 5 bobFactStore).2).2).states.filter
          (statePred 1 "bob") = [r] ∧ r.seen = true ∧ r.isFavorite = true) := by
  constructor
  · intro uid input now store hfact
    obtain ⟨g, hg⟩ := Option.isSome_iff_exists.mp hfact
    cases hex : store.states.find? (statePred input.factId uid) with
    | some e =>
      refine ⟨mergeState uid input (Option.some e) now e.id,
        { store with states := store.states.map (fun s =>
            if s.id == e.id then
              { mergeState uid input (Option.some e) now e.id with id := s.id } else s) },
        ?_, rfl, rfl, rfl, rfl, rfl, rfl, ?_, ?_⟩
      · unfold updateUserFactState
        simp only [requireUser]
        rw [hg, hex]
      · intro hnone
        exact Option.noConfusion hnone
      · intro e2 he2
        injection he2 with he3
        subst he3
        exact ⟨rfl, rfl⟩
    | none =>
      refine ⟨mergeState uid input Option.none now store.nextStateId,
        { store with
          states := store.states ++ [mergeState uid input Option.none now store.nextStateId]
          nextStateId := store.nextStateId + 1 },
        ?_, rfl, rfl, rfl, rfl, rfl, rfl, fun _ => rfl, ?_⟩
      · unfold updateUserFactState
        simp only [requireUser]
        rw [hg, hex]
      · intro e2 he2
        exact Option.noConfusion he2
  · exact ⟨seenAndFavoriteRow, by decide, rfl, rfl⟩

/-- C4 witness: the general merge characterization applied to "dana" updating
fact 1 on a store with no prior state row. -/
theorem claim_C4_witness :
    ((bobFactStore.facts.find? (fun f => f.id == markFavoriteInput.factId)).isSome = true) ∧
    (∃ st store1,
      updateUserFactState (Option.some "dana") markFavoriteInput 7 bobFactStore =
        (Except.ok st, store1) ∧
      st.seen = markFavoriteInput.seen.getD
        (((bobFactStore.states.find? (statePred markFavoriteInput.factId "dana")).map
          (fun e => e.seen)).getD false) ∧
      st.seenAt = applyOpt markFavoriteInput.seenAt
        ((bobFactStore.states.find? (statePred markFavoriteInput.factId "dana")).bind
          (fun e => e.seenAt)) ∧
      st.isFavorite = markFavoriteInput.isFavorite.getD
        (((bobFactStore.states.find? (statePred markFavoriteInput.factId "dana")).map
          (fun e => e.isFavorite)).getD false) ∧
      st.reaction = markFavoriteInput.reaction.getD
        (((bobFactStore.states.find? (statePred markFavoriteInput.factId "dana")).map
          (fun e => e.reaction)).getD Reaction.none) ∧
      st.createdAt = ((bobFactStore.states.find? (statePred markFavoriteInput.factId "dana")).map
        (fun e => e.createdAt)).getD 7 ∧
      st.updatedAt = 7 ∧
      (bobFactStore.states.find? (statePred markFavoriteInput.factId "dana") = Option.none →
        store1.states = bobFactStore.states ++ [st]) ∧
      (∀ e, bobFactStore.states.find? (statePred markFavoriteInput.factId "dana") =
          Option.some e →
        st.id = e.id ∧ store1.states = bobFactStore.states.map (fun s =>
          if s.id == e.id then { st with id := s.id } else s))) :=
  ⟨by decide,
    claim_C4_merge_semantics.1 "dana" markFavoriteInput 7 bobFactStore (by decide)⟩

end FactGen
